import Mathlib

/-!
Shallow embedding of the AdaSure Pro accessibility widget's CSS
rule-generation and tool-activation engine, together with proofs of the
spec's claims about it.

Sources embedded:
* `utils/cssGenerator` — `generateCSS`, `wrapCSSToSelector`,
  `generateCSSFromConfig`, `injectToolCSS`;
* `tools/enableContrast` — the filter tool (including its stale-variable
  reference, modelled as a JavaScript `ReferenceError`);
* `tools/adjustFontSize` — the font-scaling tool.

JavaScript strings are Lean `String`s; JavaScript numbers (font sizes and
multipliers, which stay well inside the exactly-representable range here)
are modelled as `ℚ`; a JS object used as a map is a `List (String × String)`
in insertion order; `undefined`/absent optional fields are `Option`.
-/

namespace AdaSure

/-- JavaScript whitespace as far as this code base produces it
(the compiler only ever emits ordinary spaces). -/
def jsWs (c : Char) : Bool :=
  c = ' ' || c = '\t' || c = '\n' || c = '\r'

/-- Model of JavaScript `String.prototype.trim`: drop whitespace from both
ends, at the character-list level. -/
def jsTrim (s : String) : String :=
  ⟨((s.data.dropWhile jsWs).reverse.dropWhile jsWs).reverse⟩

/-- `const browserPrefixes = ['-o-', '-ms-', '-moz-', '-webkit-', ''];` -/
def browserPrefixes : List String := ["-o-", "-ms-", "-moz-", "-webkit-", ""]

/-- `const propertiesNeedPrefix = ["filter"];` -/
def propertiesNeedPrefix : List String := ["filter"]

/-- One emitted declaration `${prefix}${key}: ${value} !important;`
(without the separating space the source appends after each). -/
def renderDecl (p k v : String) : String :=
  p ++ k ++ ": " ++ v ++ " !important;"

/-- The declarations `generateCSS` emits for one `styles` entry, in order. -/
def declsFor (k v : String) : List String :=
  (if propertiesNeedPrefix.contains k then browserPrefixes else [""]).map
    (fun p => renderDecl p k v)

/-- All declarations for a `styles` map, in key order. -/
def declList : List (String × String) → List String
  | [] => []
  | (k, v) :: rest => declsFor k v ++ declList rest

/-- `generateCSS(styles)`: concatenate `${prefix}${key}: ${value} !important; `
per declaration (each with a trailing space, as in the source) and trim. -/
def generateCSS (styles : List (String × String)) : String :=
  jsTrim (String.join ((declList styles).map (· ++ " ")))

/-- `wrapCSSToSelector({selector, childrenSelector, css})`: one rule per child
selector; empty child selector (falsy) means the selector itself. -/
def wrapCSSToSelector (selector : String) (childrenSelector : List String)
    (css : String) : String :=
  jsTrim (String.join (childrenSelector.map (fun childSelector =>
    (if childSelector ≠ "" then selector ++ " " ++ childSelector else selector)
      ++ " \x7b " ++ css ++ " \x7d ")))

/-- `IToolConfig`: the tool configuration record. A missing `childrenSelector`
is `none` (the source applies `config.childrenSelector || [""]`, and an
empty array is truthy in JavaScript, so `some []` stays `[]`); the falsy
string fields `selector`, `css`, `id` use `""` for absent. -/
structure IToolConfig where
  id : String := ""
  selector : String := ""
  childrenSelector : Option (List String) := none
  styles : List (String × String) := []
  css : String := ""
  enable : Bool := false
deriving Repr, DecidableEq

/-- `generateCSSFromConfig(config)`. -/
def generateCSSFromConfig (config : IToolConfig) : String :=
  let generatedCSS := generateCSS config.styles
  let output :=
    if generatedCSS ≠ "" ∧ config.selector ≠ "" then
      wrapCSSToSelector config.selector (config.childrenSelector.getD [""])
        generatedCSS
    else if generatedCSS ≠ "" then
      generatedCSS
    else ""
  let output := if config.css ≠ "" then output ++ " " ++ config.css else output
  jsTrim output

/-! ## The document model

The only document state the engine touches: the ordered list of injected
style elements (id, css text) and the root element's `classList`
(a `DOMTokenList`, i.e. an ordered set of class names). -/

structure DomState where
  sheets : List (String × String) := []
  classes : List String := []
deriving Repr, DecidableEq

/-- `classList.add`: a `DOMTokenList` never duplicates a token. -/
def classListAdd (cs : List String) (c : String) : List String :=
  if c ∈ cs then cs else cs ++ [c]

/-- `classList.remove`. -/
def classListRemove (cs : List String) (c : String) : List String :=
  cs.filter (· ≠ c)

/-- `classList.toggle(c, force)`. -/
def classListToggle (cs : List String) (c : String) (force : Bool) : List String :=
  if force then classListAdd cs c else classListRemove cs c

/-- `document.getElementById(id)?.remove()`: removes the first element with
the given id, if any. -/
def removeFirstById : List (String × String) → String → List (String × String)
  | [], _ => []
  | x :: rest, i => if x.1 = i then rest else x :: removeFirstById rest i

/-- Create-or-replace: replace the text of the first element carrying the id,
or append a fresh element when none exists. -/
def setFirstById : List (String × String) → String → String → List (String × String)
  | [], i, css => [(i, css)]
  | x :: rest, i, css =>
      if x.1 = i then (i, css) :: rest else x :: setFirstById rest i css

/-- Modelled from the spec: the `utils/addStylesheet` module is imported by
`utils/cssGenerator` but absent from the sources. Per §4.2, it
create-or-replaces the style resource identified by the resource id with the
compiled text, and when the compiled CSS is empty no resource is created
(a no-op activation). -/
def addStylesheet (sheets : List (String × String)) (i css : String) :
    List (String × String) :=
  if css = "" then sheets else setFirstById sheets i css

/-- `injectToolCSS(config)` from `utils/cssGenerator`, acting on the
document state. -/
def injectToolCSS (st : DomState) (config : IToolConfig) : DomState :=
  let toolId := "asw-" ++ config.id
  let st1 :=
    if config.enable then
      { st with sheets := addStylesheet st.sheets toolId (generateCSSFromConfig config) }
    else
      { st with sheets := removeFirstById st.sheets toolId }
  { st1 with classes := classListToggle st1.classes toolId config.enable }

/-! ## The contrast/filter tool (`enableContrast`) -/

/-- A thrown JavaScript error. -/
inductive JsError where
  | referenceError (name : String)
deriving Repr, DecidableEq

/-- The body of the source's filter-clearing loop, per class name:

    document.documentElement.classList.remove(className);
    document.getElementById(s!"asw-\x7bFILTERS[key.replace(..)]?.id\x7d")?.remove();

The second statement reads the identifier `key`, which is not in scope there
(it was the parameter of the earlier `.map` callback), so in a module
(strict mode) evaluating it throws a `ReferenceError` before
`getElementById` is ever reached. -/
def clearLoop (st : DomState) : List String → Except JsError DomState
  | [] => .ok st
  | c :: _rest =>
      let _st1 : DomState := { st with classes := classListRemove st.classes c }
      .error (.referenceError "key")

/-- `enableContrast(contrast)` from the filter tool, over an arbitrary
filter registry (`FILTERS`), as an association list in insertion order.
A falsy `contrast` argument is the empty string. -/
def enableContrast (filters : List (String × IToolConfig)) (st : DomState)
    (contrast : String) : Except JsError DomState := do
  let contrastClasses := filters.map (fun kv => "asw-" ++ kv.1)
  let st ← clearLoop st contrastClasses
  if contrast = "" ∨ (filters.lookup contrast).isNone then
    return st
  match filters.lookup contrast with
  | none => return st
  | some filter =>
      let st := injectToolCSS st { filter with enable := true }
      return { st with classes := classListAdd st.classes ("asw-" ++ contrast) }

/-- The `FILTERS` registry from `enum/Filters`, with the six contrast
filters in source order. The `TEXT_SELECTORS` list it splices into
`childrenSelector` comes from the absent `enum/Selectors` module, so it is a
parameter here; the claims about the filter tool do not depend on it. -/
def FILTERS (textSelectors : List String) : List (String × IToolConfig) :=
  [ ("dark-contrast",
      { id := "dark-contrast", selector := "html.asw-dark-contrast",
        styles := [("color", "#FFFFFF"), ("fill", "#FFFFFF"),
                   ("background-color", "#000000")],
        childrenSelector := some (textSelectors ++
          ["div", "span", "section", "article", "main", "aside", "header", "footer"]) }),
    ("light-contrast",
      { id := "light-contrast", selector := "html.asw-light-contrast",
        styles := [("color", "#000000"), ("fill", "#000000"),
                   ("background-color", "#FFFFFF")],
        childrenSelector := some (textSelectors ++
          ["div", "span", "section", "article", "main", "aside", "header", "footer"]) }),
    ("high-contrast",
      { id := "high-contrast", selector := "html.asw-high-contrast",
        styles := [("filter", "contrast(125%)")],
        childrenSelector := some ["body", "*"] }),
    ("high-saturation",
      { id := "high-saturation", selector := "html.asw-high-saturation",
        styles := [("filter", "saturate(200%)")],
        childrenSelector := some ["body", "*"] }),
    ("low-saturation",
      { id := "low-saturation", selector := "html.asw-low-saturation",
        styles := [("filter", "saturate(50%)")],
        childrenSelector := some ["body", "*"] }),
    ("monochrome",
      { id := "monochrome", selector := "html.asw-monochrome",
        styles := [("filter", "grayscale(100%)")],
        childrenSelector := some ["body", "*"] }) ]

/-! ## The font-size tool (`tools/adjustFontSize`)

An element, as far as `adjustFontSize` observes and mutates it. DOM queries
that depend on page structure rather than on this tool's own state become
fields: `inWidgetSubtree` is the result of
`EXCLUDED_SELECTORS.some(sel => el.closest(sel))`, `visible` is
`el.offsetParent !== null`. The `ICON_SELECTOR` set comes from the absent
`enum/Selectors` module and is a parameter of the tool. Font sizes are `ℚ`;
`dataset.aswOrgFontSize` holds the string of a previously parsed size, so it
is modelled as `Option ℚ` with `Number(undefined)` (NaN, falsy) behaving
like the falsy `0`. -/

structure Element where
  classes : List String := []
  inWidgetSubtree : Bool := false
  visible : Bool := true
  textContent : String := "x"
  intrinsicFontSize : ℚ := 16
  orgFontSizeData : Option ℚ := none
  styleFontSize : Option ℚ := none
deriving Repr, DecidableEq

/-- `window.getComputedStyle(el).fontSize`: the inline style set with
`!important` priority wins over the page's own (intrinsic) size. -/
def computedFontSize (el : Element) : ℚ :=
  el.styleFontSize.getD el.intrinsicFontSize

/-- The `forEach` body of `adjustFontSize` for one matched element. -/
def adjustElement (iconSet : List String) (multiply : ℚ) (el : Element) :
    Element :=
  if el.classes.any (fun cls => iconSet.contains cls) then el
  else if el.inWidgetSubtree then el
  else if el.visible = false ∨ jsTrim el.textContent = "" then el
  else
    let org0 : ℚ := el.orgFontSizeData.getD 0
    let el1 :=
      if org0 = 0 then { el with orgFontSizeData := some (computedFontSize el) }
      else el
    let orgFontSize := if org0 = 0 then computedFontSize el else org0
    let newFontSize := max 8 (min 72 (orgFontSize * multiply))
    { el1 with styleFontSize := some newFontSize }

/-- The document state `adjustFontSize` touches: the elements matched by
`FONT_SIZE_SELECTOR` (in document order) and the
`documentElement.dataset.aswFontMultiplier` slot. -/
structure FontDoc where
  elements : List Element := []
  fontMultiplierData : Option ℚ := none
deriving Repr, DecidableEq

/-- `adjustFontSize(multiply = 1)`. -/
def adjustFontSize (iconSet : List String) (doc : FontDoc)
    (multiply : ℚ := 1) : FontDoc :=
  { elements := doc.elements.map (adjustElement iconSet multiply),
    fontMultiplierData := some multiply }

/-! ## Spec-side renderings (for the refinement claims)

These definitions follow the specification's words, not the source; the
refinement theorems below compare them with the source-derived functions. -/

/-- Spec §4.1: the declarations for a styles map — for each property, if it
is in the vendor-prefix set (exactly `filter`), one declaration per prefix
in the fixed order `-o-, -ms-, -moz-, -webkit-, unprefixed`; otherwise
exactly one unprefixed declaration; every declaration suffixed
`!important`. -/
def specDeclarations (styles : List (String × String)) : List String :=
  styles.flatMap (fun kv =>
    if kv.1 = "filter" then
      ["-o-", "-ms-", "-moz-", "-webkit-", ""].map
        (fun p => p ++ kv.1 ++ ": " ++ kv.2 ++ " !important;")
    else
      [kv.1 ++ ": " ++ kv.2 ++ " !important;"])

/-- "concatenated separated by a single space". -/
def joinSpace : List String → String
  | [] => ""
  | [d] => d
  | d :: rest => d ++ " " ++ joinSpace rest

/-- Spec §4.1 `renderDeclarations`: the declarations, separated by a single
space, trimmed. -/
def renderDeclarationsSpec (styles : List (String × String)) : String :=
  jsTrim (joinSpace (specDeclarations styles))

/-- Spec §4.1 `scopeDeclarations`: one rule `"fullSelector \x7b block \x7d "`
per child-selector entry, concatenated in list order. -/
def scopeDeclarationsSpec (selector : String) (childrenSelectors : List String)
    (block : String) : String :=
  String.join (childrenSelectors.map (fun childSelector =>
    (if childSelector = "" then selector else selector ++ " " ++ childSelector)
      ++ " \x7b " ++ block ++ " \x7d "))

/-- Spec §4.1 `compile`: scoped rules when a selector is set (children
defaulting to a single empty entry), the bare declaration block otherwise;
`config.css` appended space-prefixed when present; result trimmed. -/
def compileSpec (config : IToolConfig) : String :=
  let block := generateCSS config.styles
  let body :=
    if config.selector ≠ "" then
      scopeDeclarationsSpec config.selector (config.childrenSelector.getD [""])
        block
    else block
  jsTrim (body ++ (if config.css ≠ "" then " " ++ config.css else ""))

/-- Spec §4.1 `compile`, amended: the generated rules block is trimmed
before `config.css` is appended space-prefixed (so exactly one space
separates the last rule from `css`). -/
def compileSpecAmended (config : IToolConfig) : String :=
  let block := generateCSS config.styles
  let body :=
    if config.selector ≠ "" then
      jsTrim (scopeDeclarationsSpec config.selector
        (config.childrenSelector.getD [""]) block)
    else block
  jsTrim (body ++ (if config.css ≠ "" then " " ++ config.css else ""))

/-- The empty document: no injected sheets, no root classes. -/
def emptyDom : DomState := ⟨[], []⟩

/-- A concrete tool configuration used to instantiate the general
theorems. -/
def cfgRF : IToolConfig :=
  { id := "readable-font", selector := "html.asw-readable-font",
    styles := [("color", "#fff")], enable := true }

/-- A concrete configuration with scoped rules and extra literal CSS. -/
def cfgScoped : IToolConfig :=
  { id := "demo", selector := "html.asw-demo",
    childrenSelector := some ["p", ""],
    styles := [("color", "#fff")], css := "q \x7b \x7d" }

/-! ## Helper lemmas -/

theorem data_append (s t : String) : (s ++ t).data = s.data ++ t.data := rfl

/-- Trimming ignores one trailing space. -/
theorem jsTrim_append_space (s : String) : jsTrim (s ++ " ") = jsTrim s := by
  unfold jsTrim
  rw [data_append]
  show String.mk (((s.data ++ [' ']).dropWhile jsWs).reverse.dropWhile jsWs).reverse = _
  rcases h : s.data.dropWhile jsWs with _ | ⟨c, cs⟩
  · rw [List.dropWhile_append, h]
    simp [jsWs]
  · rw [List.dropWhile_append, h]
    simp only [List.isEmpty_cons, Bool.false_eq_true, if_false]
    rw [List.reverse_append]
    simp [jsWs]

theorem foldl_append_str (a b : String) (l : List String) :
    List.foldl (fun r s => r ++ s) (a ++ b) l
      = a ++ List.foldl (fun r s => r ++ s) b l := by
  induction l generalizing b with
  | nil => rfl
  | cons x xs ih =>
      simp only [List.foldl_cons]
      rw [String.append_assoc, ih]

theorem join_cons (s : String) (l : List String) :
    String.join (s :: l) = s ++ String.join l := by
  show List.foldl (fun r t => r ++ t) ("" ++ s) l = _
  have h : ("" : String) ++ s = s ++ "" := by
    simp [String.append_empty, String.empty_append]
  rw [h, foldl_append_str]
  rfl

/-- The source's per-declaration trailing spaces amount to single-space
separation plus one trailing space. -/
theorem join_map_space (l : List String) (hl : l ≠ []) :
    String.join (l.map (· ++ " ")) = joinSpace l ++ " " := by
  induction l with
  | nil => simp at hl
  | cons d rest ih =>
      rcases rest with _ | ⟨e, rest'⟩
      · simp [String.join, joinSpace]
      · have h2 : e :: rest' ≠ [] := by simp
        calc String.join ((d :: e :: rest').map (· ++ " "))
            = (d ++ " ") ++ String.join ((e :: rest').map (· ++ " ")) := by
              rw [List.map_cons, join_cons]
          _ = (d ++ " ") ++ (joinSpace (e :: rest') ++ " ") := by rw [ih h2]
          _ = joinSpace (d :: e :: rest') ++ " " := by
              show _ = (d ++ " " ++ joinSpace (e :: rest')) ++ " "
              simp [String.append_assoc]

/-- The source's declaration list coincides with the spec's. -/
theorem declList_eq_specDeclarations (styles : List (String × String)) :
    declList styles = specDeclarations styles := by
  induction styles with
  | nil => rfl
  | cons kv rest ih =>
      obtain ⟨k, v⟩ := kv
      by_cases hk : k = "filter"
      · subst hk
        simp [declList, specDeclarations, declsFor, propertiesNeedPrefix,
          browserPrefixes, renderDecl, ih]
      · simp [declList, specDeclarations, declsFor, propertiesNeedPrefix,
          browserPrefixes, renderDecl, hk, ih]

/-- The compiled declarations of the source coincide with the spec's
rendering. -/
theorem generateCSS_eq_spec (styles : List (String × String)) :
    generateCSS styles = renderDeclarationsSpec styles := by
  unfold generateCSS renderDeclarationsSpec
  rw [declList_eq_specDeclarations]
  rcases specDeclarations styles with _ | ⟨d, rest⟩
  · rfl
  · rw [join_map_space _ (by simp), jsTrim_append_space]

/-- A string containing a non-whitespace character does not trim to the
empty string. -/
theorem jsTrim_ne_empty_of_mem {s : String} {c : Char} (hc : c ∈ s.data)
    (hw : jsWs c = false) : jsTrim s ≠ "" := by
  intro h
  have hdata : (jsTrim s).data = [] := by rw [h]
  unfold jsTrim at hdata
  simp only [List.reverse_eq_nil_iff] at hdata
  rw [List.dropWhile_eq_nil_iff] at hdata
  have hall : ∀ x ∈ s.data.dropWhile jsWs, jsWs x := by
    intro x hx
    exact hdata x (List.mem_reverse.mpr hx)
  have hall2 : ∀ x ∈ s.data, jsWs x := by
    intro x hx
    rw [← List.takeWhile_append_dropWhile jsWs s.data] at hx
    rcases List.mem_append.mp hx with h1 | h2
    · exact List.mem_takeWhile_imp h1
    · exact hall x h2
  have := hall2 c hc
  rw [hw] at this
  exact Bool.false_ne_true this

theorem semicolon_mem_renderDecl (p k v : String) :
    ';' ∈ (renderDecl p k v).data := by
  have h : ';' ∈ (" !important;" : String).data := by decide
  unfold renderDecl
  simp only [data_append, List.mem_append]
  exact Or.inr h

/-- A non-empty styles map always compiles to non-empty declarations. -/
theorem generateCSS_ne_empty (k v : String) (rest : List (String × String)) :
    generateCSS ((k, v) :: rest) ≠ "" := by
  unfold generateCSS
  have hne : declsFor k v ≠ [] := by
    unfold declsFor
    rcases h : propertiesNeedPrefix.contains k with _ | _ <;>
      simp [h, browserPrefixes]
  rcases hd : declsFor k v with _ | ⟨d, ds⟩
  · exact absurd hd hne
  have hdsc : ';' ∈ d.data := by
    have : d ∈ declsFor k v := by rw [hd]; exact List.mem_cons_self d ds
    unfold declsFor at this
    rcases List.mem_map.mp this with ⟨p, _, hp⟩
    rw [← hp]
    exact semicolon_mem_renderDecl p k v
  have hmem : ';' ∈ (String.join ((declList ((k, v) :: rest)).map (· ++ " "))).data := by
    show ';' ∈ (String.join ((declsFor k v ++ declList rest).map (· ++ " "))).data
    rw [hd]
    simp only [List.cons_append, List.map_cons, join_cons, data_append,
      List.mem_append]
    exact Or.inl (Or.inl hdsc)
  exact jsTrim_ne_empty_of_mem hmem (by decide)

/-! ## Lemmas on the document-state operations -/

theorem mem_classListAdd (cs : List String) (c : String) :
    c ∈ classListAdd cs c := by
  unfold classListAdd
  by_cases h : c ∈ cs
  · simp [h]
  · simp [h]

theorem classListAdd_idem (cs : List String) (c : String) :
    classListAdd (classListAdd cs c) c = classListAdd cs c := by
  unfold classListAdd
  by_cases h : c ∈ cs
  · simp [h]
  · simp [h]

theorem classListRemove_idem (cs : List String) (c : String) :
    classListRemove (classListRemove cs c) c = classListRemove cs c := by
  unfold classListRemove
  rw [List.filter_filter]
  simp

theorem classListToggle_idem (cs : List String) (c : String) (b : Bool) :
    classListToggle (classListToggle cs c b) c b = classListToggle cs c b := by
  cases b
  · exact classListRemove_idem cs c
  · exact classListAdd_idem cs c

theorem setFirstById_idem (l : List (String × String)) (i css : String) :
    setFirstById (setFirstById l i css) i css = setFirstById l i css := by
  induction l with
  | nil => simp [setFirstById]
  | cons x rest ih =>
      by_cases h : x.1 = i
      · simp [setFirstById, h]
      · simp [setFirstById, h, ih]

theorem addStylesheet_idem (l : List (String × String)) (i css : String) :
    addStylesheet (addStylesheet l i css) i css = addStylesheet l i css := by
  unfold addStylesheet
  by_cases h : css = ""
  · simp [h]
  · simp [h, setFirstById_idem]

theorem removeFirstById_of_not_mem (l : List (String × String)) (i : String)
    (h : i ∉ l.map Prod.fst) : removeFirstById l i = l := by
  induction l with
  | nil => rfl
  | cons x rest ih =>
      simp only [List.map_cons, List.mem_cons, not_or] at h
      have hne : ¬x.1 = i := fun hx => h.1 hx.symm
      simp [removeFirstById, hne, ih h.2]

theorem not_mem_keys_removeFirstById (l : List (String × String)) (i : String)
    (h : (l.map Prod.fst).Nodup) : i ∉ (removeFirstById l i).map Prod.fst := by
  induction l with
  | nil => simp [removeFirstById]
  | cons x rest ih =>
      rw [List.map_cons, List.nodup_cons] at h
      by_cases hx : x.1 = i
      · simpa [removeFirstById, hx] using fun hmem => h.1 (hx ▸ hmem)
      · simp only [removeFirstById, hx, if_false, List.map_cons, List.mem_cons,
          not_or]
        exact ⟨fun he => hx he.symm, ih h.2⟩

theorem removeFirstById_idem (l : List (String × String)) (i : String)
    (h : (l.map Prod.fst).Nodup) :
    removeFirstById (removeFirstById l i) i = removeFirstById l i :=
  removeFirstById_of_not_mem _ _ (not_mem_keys_removeFirstById l i h)

theorem filter_eq_nil_of_not_mem_keys (l : List (String × String)) (i : String)
    (h : i ∉ l.map Prod.fst) :
    l.filter (fun x => x.1 = i) = [] := by
  induction l with
  | nil => rfl
  | cons x rest ih =>
      simp only [List.map_cons, List.mem_cons, not_or] at h
      have hne : ¬x.1 = i := fun hx => h.1 hx.symm
      simp [List.filter_cons, hne, ih h.2]

theorem filter_setFirstById (l : List (String × String)) (i css : String)
    (h : (l.map Prod.fst).Nodup) :
    (setFirstById l i css).filter (fun x => x.1 = i) = [(i, css)] := by
  induction l with
  | nil => simp [setFirstById]
  | cons x rest ih =>
      rw [List.map_cons, List.nodup_cons] at h
      by_cases hx : x.1 = i
      · have : i ∉ rest.map Prod.fst := fun hmem => h.1 (hx ▸ hmem)
        simp [setFirstById, hx, List.filter_cons,
          filter_eq_nil_of_not_mem_keys rest i this]
      · simp [setFirstById, hx, List.filter_cons, ih h.2]

theorem count_classListAdd (cs : List String) (c : String) (h : cs.Nodup) :
    (classListAdd cs c).count c = 1 := by
  unfold classListAdd
  by_cases hm : c ∈ cs
  · simpa [hm] using List.count_eq_one_of_mem h hm
  · simp [hm, List.count_append, List.count_eq_zero_of_not_mem hm]

/-! ## Claim theorems -/

/-- C1: the claim says applying one filter and then another leaves only the
second filter's resource and marker class present. The code does not do
this: the very first `applyFilter` call already throws a `ReferenceError`
(the clearing loop reads the out-of-scope identifier `key`), for every
registry text-selector list and every starting document, so the second
filter is never activated and the single-active-filter invariant is never
established by this code path. -/
theorem enableContrast_sequence_reference_error
    (st : DomState) (textSelectors : List String) :
    enableContrast (FILTERS textSelectors) st "monochrome"
        = .error (.referenceError "key")
    ∧ enableContrast (FILTERS textSelectors) st "dark-contrast"
        = .error (.referenceError "key") :=
  ⟨rfl, rfl⟩

/-- C7: the claim says an unknown (or falsy) filter name is treated as
"clear all filters" and never raises an error. The code instead throws a
`ReferenceError` before the registry lookup is ever reached, because the
clearing loop that runs first reads the out-of-scope identifier `key`:
neither an unknown name nor the empty name returns normally. -/
theorem enableContrast_unknown_reference_error
    (st : DomState) (textSelectors : List String) :
    enableContrast (FILTERS textSelectors) st "no-such-filter"
        = .error (.referenceError "key")
    ∧ enableContrast (FILTERS textSelectors) st ""
        = .error (.referenceError "key") :=
  ⟨rfl, rfl⟩

set_option maxRecDepth 8192 in
/-- C3: for every styles map, `generateCSS` emits, for each property in the
vendor-prefix set (exactly `filter`), one declaration per prefix in the
order `-o-, -ms-, -moz-, -webkit-`, unprefixed, and for every other
property exactly one unprefixed declaration, each suffixed `!important`,
all joined by single spaces and trimmed; in particular
`filter: grayscale(100%)` yields the five declarations in that order and
`color: #fff` yields exactly one. -/
theorem generateCSS_vendor_prefixing :
    (∀ styles : List (String × String),
      generateCSS styles = renderDeclarationsSpec styles)
    ∧ generateCSS [("filter", "grayscale(100%)")] =
        "-o-filter: grayscale(100%) !important; " ++
        "-ms-filter: grayscale(100%) !important; " ++
        "-moz-filter: grayscale(100%) !important; " ++
        "-webkit-filter: grayscale(100%) !important; " ++
        "filter: grayscale(100%) !important;"
    ∧ generateCSS [("color", "#fff")] = "color: #fff !important;" :=
  ⟨generateCSS_eq_spec, by decide, by decide⟩

theorem injectToolCSS_unfold (st : DomState) (config : IToolConfig) :
    injectToolCSS st config =
      ⟨(if config.enable then
          addStylesheet st.sheets ("asw-" ++ config.id)
            (generateCSSFromConfig config)
        else removeFirstById st.sheets ("asw-" ++ config.id)),
       classListToggle st.classes ("asw-" ++ config.id) config.enable⟩ := by
  unfold injectToolCSS
  cases config.enable <;> rfl

set_option maxRecDepth 8192 in
/-- C2: `injectToolCSS` is idempotent: invoking it with the same
`(config, enable)` pair twice leaves the document in the same observable
state as invoking it once; moreover with `enable = true` (and non-empty
compiled CSS) there is afterwards exactly one style resource for the tool
id, holding the latest compiled CSS (replaced, not accumulated), and the
marker class is present exactly once on the document root. The hypotheses
are the document's own well-formedness: element ids and `classList` tokens
are unique. -/
theorem injectToolCSS_idempotent (st : DomState) (config : IToolConfig)
    (hs : (st.sheets.map Prod.fst).Nodup) (hc : st.classes.Nodup) :
    injectToolCSS (injectToolCSS st config) config = injectToolCSS st config
    ∧ (config.enable = true → generateCSSFromConfig config ≠ "" →
        ((injectToolCSS (injectToolCSS st config) config).sheets.filter
            (fun x => x.1 = "asw-" ++ config.id))
          = [("asw-" ++ config.id, generateCSSFromConfig config)]
        ∧ (injectToolCSS (injectToolCSS st config) config).classes.count
            ("asw-" ++ config.id) = 1) := by
  rw [injectToolCSS_unfold st config,
    injectToolCSS_unfold _ config]
  cases hEn : config.enable
  · refine ⟨?_, by simp⟩
    simp only [Bool.false_eq_true, if_false]
    rw [removeFirstById_idem st.sheets _ hs, classListToggle_idem]
  · constructor
    · simp only [if_true]
      rw [addStylesheet_idem, classListToggle_idem]
    · intro _ hcss
      constructor
      · simp only [if_true]
        rw [addStylesheet_idem]
        unfold addStylesheet
        rw [if_neg hcss]
        exact filter_setFirstById st.sheets _ _ hs
      · simp only [classListToggle, if_true]
        rw [classListAdd_idem]
        exact count_classListAdd st.classes _ hc

/-- A closed instance of C2's theorem: a concrete one-tool activation on
the empty document, run twice. -/
theorem injectToolCSS_idempotent_witness :
    injectToolCSS (injectToolCSS emptyDom cfgRF) cfgRF
      = injectToolCSS emptyDom cfgRF
    ∧ (cfgRF.enable = true → generateCSSFromConfig cfgRF ≠ "" →
        ((injectToolCSS (injectToolCSS emptyDom cfgRF) cfgRF).sheets.filter
            (fun x => x.1 = "asw-" ++ cfgRF.id))
          = [("asw-" ++ cfgRF.id, generateCSSFromConfig cfgRF)]
        ∧ (injectToolCSS (injectToolCSS emptyDom cfgRF) cfgRF).classes.count
            ("asw-" ++ cfgRF.id) = 1) :=
  injectToolCSS_idempotent emptyDom cfgRF (by simp [emptyDom]) (by simp [emptyDom])

theorem adjustElement_not_skipped (iconSet : List String) (m : ℚ)
    (el : Element)
    (hicon : el.classes.any (fun cls => iconSet.contains cls) = false)
    (hwidget : el.inWidgetSubtree = false)
    (hvis : el.visible = true)
    (htext : jsTrim el.textContent ≠ "") :
    adjustElement iconSet m el =
      { (if el.orgFontSizeData.getD 0 = 0 then
          { el with orgFontSizeData := some (computedFontSize el) }
         else el) with
        styleFontSize := some (max 8 (min 72
          ((if el.orgFontSizeData.getD 0 = 0 then computedFontSize el
            else el.orgFontSizeData.getD 0) * m))) } := by
  unfold adjustElement
  rw [hicon, hwidget, hvis]
  simp only [Bool.false_eq_true, if_false]
  rw [if_neg (by simp [htext])]

theorem adjustElement_cached (iconSet : List String) (m : ℚ) (el : Element)
    (base : ℚ)
    (hicon : el.classes.any (fun cls => iconSet.contains cls) = false)
    (hwidget : el.inWidgetSubtree = false)
    (hvis : el.visible = true)
    (htext : jsTrim el.textContent ≠ "")
    (hcache : el.orgFontSizeData = some base) (hb0 : base ≠ 0) :
    adjustElement iconSet m el =
      { el with styleFontSize := some (max 8 (min 72 (base * m))) } := by
  rw [adjustElement_not_skipped iconSet m el hicon hwidget hvis htext, hcache]
  simp [hb0]
  exact hcache

theorem adjustElement_fresh (iconSet : List String) (m : ℚ) (el : Element)
    (hicon : el.classes.any (fun cls => iconSet.contains cls) = false)
    (hwidget : el.inWidgetSubtree = false)
    (hvis : el.visible = true)
    (htext : jsTrim el.textContent ≠ "")
    (hnone : el.orgFontSizeData = none) :
    adjustElement iconSet m el =
      { el with orgFontSizeData := some (computedFontSize el),
                styleFontSize := some (max 8 (min 72 (computedFontSize el * m))) } := by
  rw [adjustElement_not_skipped iconSet m el hicon hwidget hvis htext, hnone]
  simp

/-- C4: on an element whose cached-or-computed base size is 16px,
`adjustFontSize(2)` twice applies 32px, not 64px: the second call derives
from the cached original (`orgFontSize` data written on first visit), not
from the already-scaled computed size. -/
theorem adjustFontSize_non_compounding (iconSet : List String) (el : Element)
    (hicon : el.classes.any (fun cls => iconSet.contains cls) = false)
    (hwidget : el.inWidgetSubtree = false)
    (hvis : el.visible = true)
    (htext : jsTrim el.textContent ≠ "")
    (hbase : el.orgFontSizeData = some 16 ∨
        (el.orgFontSizeData = none ∧ computedFontSize el = 16)) :
    (adjustElement iconSet 2 (adjustElement iconSet 2 el)).styleFontSize = some 32
    ∧ (adjustElement iconSet 2 (adjustElement iconSet 2 el)).styleFontSize ≠ some 64
    ∧ ∀ doc : FontDoc, (adjustFontSize iconSet doc 2).elements
        = doc.elements.map (adjustElement iconSet 2) := by
  have h32 : max 8 (min 72 ((16 : ℚ) * 2)) = 32 := by norm_num
  have key : (adjustElement iconSet 2 (adjustElement iconSet 2 el)).styleFontSize
      = some 32 := by
    rcases hbase with h16 | ⟨hnone, hcomp⟩
    · rw [adjustElement_cached iconSet 2 el 16 hicon hwidget hvis htext h16
        (by norm_num)]
      have hsecond := adjustElement_cached iconSet 2
        { el with styleFontSize := some (max 8 (min 72 ((16 : ℚ) * 2))) } 16
        hicon hwidget hvis htext h16 (by norm_num)
      rw [hsecond]
      simp [h32]
    · rw [adjustElement_fresh iconSet 2 el hicon hwidget hvis htext hnone, hcomp]
      have hsecond := adjustElement_cached iconSet 2
        { el with orgFontSizeData := some 16,
                  styleFontSize := some (max 8 (min 72 ((16 : ℚ) * 2))) } 16
        hicon hwidget hvis htext rfl (by norm_num)
      rw [hsecond]
      simp [h32]
  refine ⟨key, ?_, fun doc => rfl⟩
  rw [key]
  intro hcontra
  exact absurd (Option.some.inj hcontra) (by norm_num)

/-- A closed instance of C4's theorem: a fresh 16px element scaled by 2
twice lands at 32px. -/
theorem adjustFontSize_non_compounding_witness :
    (adjustElement [] 2 (adjustElement [] 2 ({} : Element))).styleFontSize
        = some 32
    ∧ (adjustElement [] 2 (adjustElement [] 2 ({} : Element))).styleFontSize
        ≠ some 64
    ∧ ∀ doc : FontDoc, (adjustFontSize [] doc 2).elements
        = doc.elements.map (adjustElement [] 2) :=
  adjustFontSize_non_compounding [] {} rfl rfl rfl (by decide)
    (Or.inr ⟨rfl, rfl⟩)

/-- C5 counterexample: the claim says multiplier 1 restores the cached
original size for every adjusted element, but an element whose original
computed size is 6px is clamped to 8px: `clamp(6*1,8,72) = 8 ≠ 6`, even
though 6 is duly cached as the original. -/
theorem adjustFontSize_one_no_restore :
    (adjustElement [] 1 { intrinsicFontSize := 6 }).orgFontSizeData = some 6
    ∧ (adjustElement [] 1 { intrinsicFontSize := 6 }).styleFontSize = some 8
    ∧ ((8 : ℚ) ≠ 6) := by
  rw [adjustElement_fresh [] 1 { intrinsicFontSize := 6 } rfl rfl rfl
    (by decide) rfl]
  refine ⟨rfl, ?_, by norm_num⟩
  show some (max 8 (min 72 ((6 : ℚ) * 1))) = some 8
  norm_num

/-- C5 amended: multiplier 1 restores the cached base value whenever that
base lies in the clamping range `[8, 72]`; outside it the result is the
clamped value, not the original. -/
theorem adjustFontSize_one_restores_in_range (iconSet : List String)
    (el : Element) (base : ℚ)
    (hicon : el.classes.any (fun cls => iconSet.contains cls) = false)
    (hwidget : el.inWidgetSubtree = false)
    (hvis : el.visible = true)
    (htext : jsTrim el.textContent ≠ "")
    (hcache : el.orgFontSizeData = some base ∨
        (el.orgFontSizeData = none ∧ computedFontSize el = base))
    (h8 : 8 ≤ base) (h72 : base ≤ 72) :
    (adjustElement iconSet 1 el).styleFontSize = some base := by
  have hb0 : base ≠ 0 := by
    intro h
    rw [h] at h8
    norm_num at h8
  have hclamp : max 8 (min 72 base) = base := by
    rw [min_eq_right h72, max_eq_right h8]
  rcases hcache with hc | ⟨hnone, hcomp⟩
  · rw [adjustElement_cached iconSet 1 el base hicon hwidget hvis htext hc hb0]
    simp [hclamp]
  · rw [adjustElement_fresh iconSet 1 el hicon hwidget hvis htext hnone, hcomp]
    simp [hclamp]

/-- A closed instance of C5's amended theorem: a cached 16px element is
restored to 16px by multiplier 1. -/
theorem adjustFontSize_one_restores_in_range_witness :
    (adjustElement [] 1 ({ orgFontSizeData := some 16 } : Element)).styleFontSize
      = some 16 :=
  adjustFontSize_one_restores_in_range [] { orgFontSizeData := some 16 } 16
    rfl rfl rfl (by decide) (Or.inl rfl) (by decide) (by decide)

/-- C6: for every adjusted element with cached base `base` and every
multiplier `m`, the new applied size is `clamp(base*m, 8, 72)`; in
particular multiplier 10 on a 16px base yields 72px (upper clamp) and
multiplier 0.1 yields 8px (lower clamp), not 1.6px. -/
theorem adjustFontSize_clamps (iconSet : List String) (el : Element)
    (base m : ℚ)
    (hicon : el.classes.any (fun cls => iconSet.contains cls) = false)
    (hwidget : el.inWidgetSubtree = false)
    (hvis : el.visible = true)
    (htext : jsTrim el.textContent ≠ "")
    (hcache : el.orgFontSizeData = some base) (hb0 : base ≠ 0) :
    (adjustElement iconSet m el).styleFontSize = some (max 8 (min 72 (base * m)))
    ∧ (adjustElement [] 10 ({ orgFontSizeData := some 16 } : Element)).styleFontSize
        = some 72
    ∧ (adjustElement [] (1/10) ({ orgFontSizeData := some 16 } : Element)).styleFontSize
        = some 8 := by
  refine ⟨?_, ?_, ?_⟩
  · rw [adjustElement_cached iconSet m el base hicon hwidget hvis htext hcache
      hb0]
  · rw [adjustElement_cached [] 10 { orgFontSizeData := some 16 } 16
      rfl rfl rfl (by decide) rfl (by norm_num)]
    show some (max 8 (min 72 ((16 : ℚ) * 10))) = some 72
    norm_num
  · rw [adjustElement_cached [] (1/10) { orgFontSizeData := some 16 } 16
      rfl rfl rfl (by decide) rfl (by norm_num)]
    show some (max 8 (min 72 ((16 : ℚ) * (1/10)))) = some 8
    norm_num

/-- A closed instance of C6's theorem: base 16, multiplier 3 gives
`clamp(48, 8, 72) = 48`. -/
theorem adjustFontSize_clamps_witness :
    (adjustElement [] 3 ({ orgFontSizeData := some 16 } : Element)).styleFontSize
      = some (max 8 (min 72 ((16 : ℚ) * 3)))
    ∧ (adjustElement [] 10 ({ orgFontSizeData := some 16 } : Element)).styleFontSize
        = some 72
    ∧ (adjustElement [] (1/10) ({ orgFontSizeData := some 16 } : Element)).styleFontSize
        = some 8 :=
  adjustFontSize_clamps [] { orgFontSizeData := some 16 } 16 3
    rfl rfl rfl (by decide) rfl (by decide)

/-- C9: an element carrying an icon class, or inside the widget's own UI
subtree, or with no layout box, or with no visible text content, is left
entirely unchanged by `adjustFontSize`, for every multiplier. -/
theorem adjustFontSize_exclusions (iconSet : List String) (m : ℚ)
    (el : Element)
    (h : el.classes.any (fun cls => iconSet.contains cls) = true
      ∨ el.inWidgetSubtree = true
      ∨ el.visible = false
      ∨ jsTrim el.textContent = "") :
    adjustElement iconSet m el = el := by
  unfold adjustElement
  split_ifs with a b c
  · rfl
  · rfl
  · rfl
  · exfalso
    rcases h with h1 | h2 | h3 | h4
    · exact a h1
    · exact b h2
    · exact c (Or.inl h3)
    · exact c (Or.inr h4)

/-- A closed instance of C9's theorem: an element inside the widget's own
UI subtree is untouched by `adjustFontSize(3)`. -/
theorem adjustFontSize_exclusions_witness :
    adjustElement [] 3 ({ inWidgetSubtree := true } : Element)
      = { inWidgetSubtree := true } :=
  adjustFontSize_exclusions [] 3 { inWidgetSubtree := true }
    (Or.inr (Or.inl rfl))

/-- C10: no positivity validation — for every multiplier `m ≤ 0`, every
element the tool adjusts is set to exactly 8px (the base times `m` is at
most 0, so the lower clamp applies); `m` is still persisted as the
document-root multiplier data; and calling with no argument behaves as
multiplier 1. -/
theorem adjustFontSize_nonpositive_multiplier (iconSet : List String)
    (m : ℚ) (el : Element) (doc : FontDoc)
    (hm : m ≤ 0)
    (hicon : el.classes.any (fun cls => iconSet.contains cls) = false)
    (hwidget : el.inWidgetSubtree = false)
    (hvis : el.visible = true)
    (htext : jsTrim el.textContent ≠ "")
    (hdata : 0 ≤ el.orgFontSizeData.getD 0)
    (hcomp : 0 ≤ computedFontSize el) :
    (adjustElement iconSet m el).styleFontSize = some 8
    ∧ (adjustFontSize iconSet doc m).fontMultiplierData = some m
    ∧ adjustFontSize iconSet doc = adjustFontSize iconSet doc 1 := by
  refine ⟨?_, rfl, rfl⟩
  rw [adjustElement_not_skipped iconSet m el hicon hwidget hvis htext]
  have horg : 0 ≤ (if el.orgFontSizeData.getD 0 = 0 then computedFontSize el
      else el.orgFontSizeData.getD 0) := by
    split_ifs
    · exact hcomp
    · exact hdata
  have hle : (if el.orgFontSizeData.getD 0 = 0 then computedFontSize el
      else el.orgFontSizeData.getD 0) * m ≤ 0 :=
    mul_nonpos_iff.mpr (Or.inl ⟨horg, hm⟩)
  show some (max 8 (min 72 ((if el.orgFontSizeData.getD 0 = 0 then
      computedFontSize el else el.orgFontSizeData.getD 0) * m))) = some 8
  rw [min_eq_right (le_trans hle (by norm_num)),
    max_eq_left (le_trans hle (by norm_num))]

/-- A closed instance of C10's theorem: multiplier −1 on a fresh 16px
element gives exactly 8px, and −1 is persisted. -/
theorem adjustFontSize_nonpositive_multiplier_witness :
    (adjustElement [] (-1) ({} : Element)).styleFontSize = some 8
    ∧ (adjustFontSize [] ({} : FontDoc) (-1)).fontMultiplierData = some (-1)
    ∧ adjustFontSize [] ({} : FontDoc) = adjustFontSize [] ({} : FontDoc) 1 :=
  adjustFontSize_nonpositive_multiplier [] (-1) {} {} (by decide)
    rfl rfl rfl (by decide) (by decide) (by decide)

theorem wrap_eq_scope (sel : String) (children : List String) (css : String) :
    wrapCSSToSelector sel children css
      = jsTrim (scopeDeclarationsSpec sel children css) := by
  unfold wrapCSSToSelector scopeDeclarationsSpec
  have h : ∀ c ∈ children,
      ((if c ≠ "" then sel ++ " " ++ c else sel) ++ " \x7b " ++ css ++ " \x7d ")
        = ((if c = "" then sel else sel ++ " " ++ c) ++ " \x7b " ++ css
            ++ " \x7d ") := by
    intro c _
    by_cases hc : c = "" <;> simp [hc]
  rw [List.map_congr_left h]

/-- C8 counterexample: the claim describes `compile` as emitting the rules
with their per-rule trailing spaces, appending `config.css` space-prefixed
and trimming only at the end; on a config with both scoped rules and
literal `css` that description yields two spaces before `css`, but the code
trims the rules block first and produces exactly one. -/
theorem generateCSSFromConfig_literal_counterexample :
    generateCSSFromConfig cfgScoped ≠ compileSpec cfgScoped := by decide

/-- C8 amended: for every config with non-empty styles, `compile` emits one
rule per `childrenSelector` entry (defaulting to a single empty entry) when
a selector is set — `selector childSelector` for a non-empty entry, the
selector alone otherwise, in list order — and the bare declaration block
when no selector is set; the generated-rules block is trimmed, and
`config.css`, when present, is then appended space-prefixed; the result is
trimmed. -/
theorem generateCSSFromConfig_compile_amended (config : IToolConfig)
    (hstyles : config.styles ≠ []) :
    generateCSSFromConfig config = compileSpecAmended config := by
  have hg : generateCSS config.styles ≠ "" := by
    rcases h : config.styles with _ | ⟨⟨k, v⟩, rest⟩
    · exact absurd h hstyles
    · exact generateCSS_ne_empty k v rest
  simp only [generateCSSFromConfig, compileSpecAmended]
  by_cases hsel : config.selector = "" <;> by_cases hcss : config.css = "" <;>
    simp [hsel, hcss, hg, wrap_eq_scope, String.append_assoc,
      String.append_empty]

/-- A closed instance of C8's amended theorem: the concrete scoped config
with literal CSS compiles to its amended-spec rendering. -/
theorem generateCSSFromConfig_compile_amended_witness :
    generateCSSFromConfig cfgScoped = compileSpecAmended cfgScoped :=
  generateCSSFromConfig_compile_amended cfgScoped (by simp [cfgScoped])

end AdaSure
